import Mathlib

/-!
Verification of `scripts/check_types_compat.py`, the compat-shim CI guard.

The script reads `Cargo.lock` and `Cargo.toml` from the working directory,
extracts every `component-runtime` package record from the lock file, parses
the version strings, takes the maximum, and fails (exit code 1) exactly when
that maximum is at or above `MIN_VERSION = (0, 4, 0)` and the manifest text
still contains the marker substring `greentic-types-compat`.

Embedding choices:
* The filesystem is an explicit `Env`: whether the lock file exists, the
  already-parsed list of `[[package]]` records of the lock file (the TOML
  parsing done by `tomllib` is external tooling and is not re-verified here),
  and the manifest text as `Option String` (`none` = missing/unreadable).
* `print` calls become a list of output lines; `return n` becomes the
  returned exit code; a raised `SystemExit`/OSError becomes `Except.error`.
* Python `str.split(".")` is modelled on the character list by
  `List.splitOn '.'`, and Python `int(...)` on a string segment by
  `pyIntChars` (optional surrounding ASCII whitespace, optional sign, then a
  nonempty run of decimal digits; underscore separators and non-ASCII digits
  are not modelled).
* Python tuple comparison is modelled by `pyTupleLt` (strict lexicographic
  order on integer lists, a shorter list being smaller than any proper
  extension of it).
-/

/-- One `[[package]]` record of the lock file, as the script reads it:
`pkg.get("name")` may be absent (`none`), `pkg["version"]` is accessed only
on records whose name matched. -/
structure LockedPackage where
  name : Option String
  version : String
deriving DecidableEq, Repr

/-- The filesystem state the script observes. -/
structure Env where
  lockExists : Bool
  lockPackages : List LockedPackage
  manifest : Option String
deriving DecidableEq, Repr

/-- How a run can terminate abnormally: `SystemExit` raised by
`parse_version` (carrying its message), or an I/O error reading the
manifest. -/
inductive RunError where
  | systemExit (msg : String)
  | ioError
deriving DecidableEq, Repr

/-- The constant `MIN_VERSION = (0, 4, 0)` from the script. -/
def MIN_VERSION : List Int := [0, 4, 0]

/-- Decimal ASCII digit, as Python's `int` accepts inside a number. -/
def isDigitCh (c : Char) : Bool := 48 ≤ c.toNat && c.toNat ≤ 57

/-- Whitespace stripped by Python `int` around a numeral
(space, tab, linefeed, vertical tab, formfeed, carriage return). -/
def isSpaceCh (c : Char) : Bool :=
  c.toNat == 32 || c.toNat == 9 || c.toNat == 10 ||
  c.toNat == 11 || c.toNat == 12 || c.toNat == 13

/-- Strip leading and trailing whitespace. -/
def stripWs (l : List Char) : List Char :=
  ((l.dropWhile isSpaceCh).reverse.dropWhile isSpaceCh).reverse

/-- Value of a run of decimal digits. -/
def digitsVal (l : List Char) : Nat :=
  l.foldl (fun a c => a * 10 + (c.toNat - 48)) 0

/-- Parse a nonempty run of decimal digits, rejecting anything else. -/
def parseDigits (l : List Char) : Option Nat :=
  if !l.isEmpty && l.all isDigitCh then some (digitsVal l) else none

/-- Model of Python `int(s)` for a string given as a character list:
optional surrounding whitespace, optional `+`/`-` sign, then a nonempty run
of decimal digits; `none` models the `ValueError`. -/
def pyIntChars (l0 : List Char) : Option Int :=
  match stripWs l0 with
  | [] => none
  | c :: rest =>
    if c = '-' then (parseDigits rest).map (fun n => -(n : Int))
    else if c = '+' then (parseDigits rest).map (fun n => (n : Int))
    else (parseDigits (c :: rest)).map (fun n => (n : Int))

/-- Model of `tuple(int(part) for part in segs)`: parse every segment, failing as a
whole on the first segment `int` rejects. -/
def seqParse : List (List Char) → Option (List Int)
  | [] => some []
  | x :: xs =>
    match pyIntChars x, seqParse xs with
    | some v, some vs => some (v :: vs)
    | _, _ => none

/-- The function `parse_version` from the script: split on `.`, parse each segment as an
integer; on failure raise `SystemExit` with a message naming the offending
value (the embedded message keeps the prefix and the value; the appended
`ValueError` text is not modelled). -/
def parse_version (value : String) : Except String (List Int) :=
  match seqParse ((value.data).splitOn '.') with
  | some xs => Except.ok xs
  | none => Except.error ("unable to parse component-runtime version " ++ value)

/-- Python strict tuple comparison `<` on integer sequences: lexicographic,
a shorter sequence preceding any proper extension of it. -/
def pyTupleLt : List Int → List Int → Bool
  | [], [] => false
  | [], _ :: _ => true
  | _ :: _, [] => false
  | a :: as, b :: bs => if a < b then true else if b < a then false else pyTupleLt as bs

/-- Python `>=` on integer tuples (total order, so `a >= b` iff `¬ a < b`). -/
def pyTupleGe (a b : List Int) : Bool := !pyTupleLt a b

/-- Python `max` over a nonempty sequence: start from the first element and
replace the current value whenever a later element is strictly greater. -/
def pyMax (x : List Int) (xs : List (List Int)) : List Int :=
  xs.foldl (fun cur v => if pyTupleLt cur v then v else cur) x

/-- The version the script compares: `max(parse_version(ver) for ver in
comp_versions)`; the `[]` case is unreachable because the script only calls
this after checking `comp_versions` is nonempty. -/
def selectedVersion : List (List Int) → List Int
  | [] => []
  | x :: xs => pyMax x xs

/-- Does `needle` start `hay`? -/
def startsWith : List Char → List Char → Bool
  | [], _ => true
  | _ :: _, [] => false
  | a :: as, b :: bs => a == b && startsWith as bs

/-- Python `needle in hay` substring test on character lists. -/
def containsSub (needle : List Char) : List Char → Bool
  | [] => needle.isEmpty
  | c :: rest => startsWith needle (c :: rest) || containsSub needle rest

/-- Python `needle in hay` on strings. -/
def containsStr (hay needle : String) : Bool := containsSub needle.data hay.data

/-- Map each element through an `Except`-valued function, stopping at the
first error — the effect order of the Python generator consumed by `max`. -/
def mapExcept (f : α → Except ε β) : List α → Except ε (List β)
  | [] => Except.ok []
  | x :: xs =>
    match f x with
    | Except.error e => Except.error e
    | Except.ok y =>
      match mapExcept f xs with
      | Except.error e => Except.error e
      | Except.ok ys => Except.ok (y :: ys)

/-- The list comprehension `[pkg["version"] for pkg in packages if pkg.get("name") == "component-runtime"]`. -/
def compVersions (packages : List LockedPackage) : List String :=
  (packages.filter (fun pkg => pkg.name == some "component-runtime")).map (·.version)

/-- The failure message printed before returning 1. -/
def failureMessage (version : List Int) : String :=
  "component-runtime has reached " ++
  String.intercalate "." (version.map toString) ++
  " but greentic-types-compat is still present.\n" ++
  "Please drop the compat shim and migrate to greentic-types 0.3+ throughout."

/-- The function `main()` from the script: the result is the list of printed lines and
the returned exit code, or the abnormal termination. -/
def main' (env : Env) : Except RunError (List String × Nat) :=
  if !env.lockExists then
    Except.ok (["Cargo.lock not found; skipping compat shim check"], 0)
  else
    let comp_versions := compVersions env.lockPackages
    if comp_versions.isEmpty then
      Except.ok (["component-runtime is not in Cargo.lock; skipping compat shim check"], 0)
    else
      match mapExcept parse_version comp_versions with
      | Except.error m => Except.error (RunError.systemExit m)
      | Except.ok parsed =>
        let version := selectedVersion parsed
        match env.manifest with
        | none => Except.error RunError.ioError
        | some text =>
          if pyTupleGe version MIN_VERSION && containsStr text "greentic-types-compat" then
            Except.ok ([failureMessage version], 1)
          else
            Except.ok ([], 0)

/-- Process exit status of `sys.exit(main())`: a returned code is the
status; an uncaught `SystemExit(message)` makes the interpreter print the
message and exit with status 1; any other uncaught exception also yields
status 1. -/
def processExit : Except RunError (List String × Nat) → Nat
  | Except.ok (_, code) => code
  | Except.error (RunError.systemExit _) => 1
  | Except.error RunError.ioError => 1

/-- The whole script as a process: `sys.exit(main())`. -/
def runScript (env : Env) : Nat := processExit (main' env)

/-- Well-formed version string in the sense of the spec: every dot-separated
segment is a nonempty run of decimal digits. -/
def wfVer (s : String) : Bool :=
  ((s.data).splitOn '.').all (fun seg => !seg.isEmpty && seg.all isDigitCh)

/-- Environment of the concrete scenario of C1/C2: the watched dependency at
version "0.4.0" only, manifest containing the marker. -/
def envShim : Env :=
  ⟨true, [⟨some "component-runtime", "0.4.0"⟩],
    some "[dev-dependencies]\ngreentic-types-compat = 1"⟩

/-- Environment of the concrete scenario of C6: two records for the watched
dependency, versions "0.3.9" and "0.4.1", manifest containing the marker. -/
def envTwo : Env :=
  ⟨true, [⟨some "component-runtime", "0.3.9"⟩, ⟨some "component-runtime", "0.4.1"⟩],
    some "[dev-dependencies]\ngreentic-types-compat = 1"⟩

/-- Same two records in the opposite order. -/
def envTwoRev : Env :=
  ⟨true, [⟨some "component-runtime", "0.4.1"⟩, ⟨some "component-runtime", "0.3.9"⟩],
    some "[dev-dependencies]\ngreentic-types-compat = 1"⟩

/-- Environment whose lock file holds an unparsable version string. -/
def envBadVersion : Env :=
  ⟨true, [⟨some "component-runtime", "0.x.0"⟩], none⟩

theorem mapExcept_error_mem {α ε β : Type} {f : α → Except ε β} {e : ε} :
    ∀ {l : List α}, mapExcept f l = Except.error e → ∃ v, v ∈ l ∧ f v = Except.error e := by
  intro l
  induction l with
  | nil => intro h; simp [mapExcept] at h
  | cons x xs ih =>
    intro h
    cases hfx : f x with
    | error e0 =>
      simp only [mapExcept, hfx] at h
      cases h
      exact ⟨x, List.mem_cons_self x xs, hfx⟩
    | ok y =>
      cases hrest : mapExcept f xs with
      | error e1 =>
        simp only [mapExcept, hfx, hrest] at h
        cases h
        obtain ⟨v, hv, hfv⟩ := ih hrest
        exact ⟨v, List.mem_cons_of_mem x hv, hfv⟩
      | ok ys => simp [mapExcept, hfx, hrest] at h

theorem parse_version_error_msg {v m : String}
    (h : parse_version v = Except.error m) :
    m = "unable to parse component-runtime version " ++ v := by
  unfold parse_version at h
  split at h
  · exact Except.noConfusion h
  · cases h
    rfl

theorem startsWith_refl : ∀ l : List Char, startsWith l l = true := by
  intro l
  induction l with
  | nil => rfl
  | cons a as ih => simp [startsWith, ih]

theorem containsSub_self (v : List Char) : containsSub v v = true := by
  cases v with
  | nil => rfl
  | cons c rest => simp [containsSub, startsWith_refl]

theorem containsSub_append_self : ∀ pre v : List Char, containsSub v (pre ++ v) = true := by
  intro pre
  induction pre with
  | nil => intro v; simpa using containsSub_self v
  | cons c cs ih => intro v; simp [containsSub, ih v]

theorem containsStr_append_right (pre v : String) :
    containsStr (pre ++ v) v = true := by
  unfold containsStr
  rw [String.data_append]
  exact containsSub_append_self pre.data v.data

theorem pyTupleLt_iff_lex : ∀ xs ys : List Int,
    pyTupleLt xs ys = true ↔ List.Lex (fun a b : Int => a < b) xs ys := by
  intro xs
  induction xs with
  | nil =>
    intro ys
    cases ys with
    | nil =>
      constructor
      · intro h; simp [pyTupleLt] at h
      · intro h; cases h
    | cons b bs =>
      constructor
      · intro _; exact List.Lex.nil
      · intro _; rfl
  | cons a as ih =>
    intro ys
    cases ys with
    | nil =>
      constructor
      · intro h; simp [pyTupleLt] at h
      · intro h; cases h
    | cons b bs =>
      rcases lt_trichotomy a b with h | h | h
      · simp only [pyTupleLt, if_pos h]
        exact iff_of_true (by simp) (List.Lex.rel h)
      · subst h
        simp only [pyTupleLt, if_neg (lt_irrefl a)]
        constructor
        · intro hlt; exact List.Lex.cons ((ih bs).mp hlt)
        · intro hlex
          cases hlex with
          | cons h1 => exact (ih bs).mpr h1
          | rel h1 => exact absurd h1 (lt_irrefl a)
      · simp only [pyTupleLt, if_neg (lt_asymm h), if_pos h]
        constructor
        · intro hf; simp at hf
        · intro hlex
          cases hlex with
          | rel h1 => exact absurd h1 (lt_asymm h)
          | cons h1 => exact absurd h (lt_irrefl a)

theorem not_space_of_digit {c : Char} (h : isDigitCh c = true) : isSpaceCh c = false := by
  simp only [isDigitCh, Bool.and_eq_true, decide_eq_true_eq] at h
  simp only [isSpaceCh, Bool.or_eq_false_iff, beq_eq_false_iff_ne, ne_eq]
  omega

theorem digit_ne_dash {c : Char} (h : isDigitCh c = true) : ¬ c = '-' := by
  intro he
  subst he
  exact absurd h (by decide)

theorem digit_ne_plus {c : Char} (h : isDigitCh c = true) : ¬ c = '+' := by
  intro he
  subst he
  exact absurd h (by decide)

theorem dropWhile_eq_self_of_not {α : Type} {p : α → Bool} {l : List α}
    (h : ∀ a ∈ l, ¬ p a) : l.dropWhile p = l := by
  cases l with
  | nil => rfl
  | cons a as => simp [List.dropWhile, h a (by simp)]

theorem stripWs_eq_self {l : List Char} (h : ∀ c ∈ l, isDigitCh c = true) :
    stripWs l = l := by
  unfold stripWs
  have h1 : l.dropWhile isSpaceCh = l :=
    dropWhile_eq_self_of_not (fun a ha => by simp [not_space_of_digit (h a ha)])
  rw [h1]
  have h2 : l.reverse.dropWhile isSpaceCh = l.reverse :=
    dropWhile_eq_self_of_not (fun a ha => by
      simp [not_space_of_digit (h a (List.mem_reverse.mp ha))])
  rw [h2, List.reverse_reverse]

theorem pyIntChars_digits {l : List Char} (hne : l ≠ [])
    (h : ∀ c ∈ l, isDigitCh c = true) :
    pyIntChars l = some ((digitsVal l : Nat) : Int) := by
  cases l with
  | nil => exact absurd rfl hne
  | cons c rest =>
    have hc : isDigitCh c = true := h c (by simp)
    simp only [pyIntChars, stripWs_eq_self h]
    rw [if_neg (digit_ne_dash hc), if_neg (digit_ne_plus hc)]
    unfold parseDigits
    rw [if_pos]
    · rfl
    · simp only [List.isEmpty_cons, Bool.not_false, Bool.true_and, List.all_eq_true]
      exact h

theorem seqParse_wf : ∀ segs : List (List Char),
    (∀ seg ∈ segs, seg ≠ [] ∧ ∀ c ∈ seg, isDigitCh c = true) →
    ∃ xs, seqParse segs = some xs ∧ xs.length = segs.length := by
  intro segs
  induction segs with
  | nil => intro _; exact ⟨[], rfl, rfl⟩
  | cons s ss ih =>
    intro h
    obtain ⟨hs1, hs2⟩ := h s (by simp)
    obtain ⟨xs, hxs, hlen⟩ := ih (fun seg hseg => h seg (List.mem_cons_of_mem s hseg))
    refine ⟨((digitsVal s : Nat) : Int) :: xs, ?_, by simp [hlen]⟩
    unfold seqParse
    rw [pyIntChars_digits hs1 hs2, hxs]

theorem main_run (env : Env) (t : String) (parsed : List (List Int))
    (hlock : env.lockExists = true)
    (hvne : compVersions env.lockPackages ≠ [])
    (hparse : mapExcept parse_version (compVersions env.lockPackages) = Except.ok parsed)
    (hman : env.manifest = some t) :
    main' env = (if pyTupleGe (selectedVersion parsed) MIN_VERSION &&
        containsStr t "greentic-types-compat" then
        Except.ok ([failureMessage (selectedVersion parsed)], 1)
      else Except.ok ([], 0)) := by
  simp [main', hlock, List.isEmpty_eq_false.mpr hvne, hparse, hman]

theorem main_parse_error (env : Env) (m : String)
    (hlock : env.lockExists = true)
    (hfail : mapExcept parse_version (compVersions env.lockPackages) = Except.error m) :
    main' env = Except.error (RunError.systemExit m) := by
  have hvne : compVersions env.lockPackages ≠ [] := by
    intro h0
    rw [h0] at hfail
    simp [mapExcept] at hfail
  simp [main', hlock, List.isEmpty_eq_false.mpr hvne, hfail]

/-- C1: assuming the lock file exists, the watched dependency
`component-runtime` appears in it, and every matching version string parses,
the process exits with status 1 if and only if the maximum parsed version is
at or above the threshold AND the manifest text contains the literal marker
substring `greentic-types-compat`; in every other combination it exits with
status 0. -/
theorem c1_decision_rule (env : Env) (t : String) (parsed : List (List Int))
    (hlock : env.lockExists = true)
    (hvne : compVersions env.lockPackages ≠ [])
    (hparse : mapExcept parse_version (compVersions env.lockPackages) = Except.ok parsed)
    (hman : env.manifest = some t) :
    ((pyTupleGe (selectedVersion parsed) MIN_VERSION = true ∧
        containsStr t "greentic-types-compat" = true) →
      main' env = Except.ok ([failureMessage (selectedVersion parsed)], 1)) ∧
    (¬ (pyTupleGe (selectedVersion parsed) MIN_VERSION = true ∧
        containsStr t "greentic-types-compat" = true) →
      main' env = Except.ok ([], 0)) := by
  rw [main_run env t parsed hlock hvne hparse hman]
  constructor
  · rintro ⟨h1, h2⟩
    rw [if_pos (show (pyTupleGe (selectedVersion parsed) MIN_VERSION &&
      containsStr t "greentic-types-compat") = true from by rw [h1, h2]; rfl)]
  · intro hneg
    rw [if_neg (fun hb => hneg (by simpa using hb))]

/-- Witness for C1: the decision rule applied to the concrete environment
`envShim`, whose maximum version is (0, 4, 0) and whose manifest holds the
marker. -/
theorem c1_decision_rule_witness :
    main' envShim = Except.ok ([failureMessage (selectedVersion [[0, 4, 0]])], 1) :=
  (c1_decision_rule envShim "[dev-dependencies]\ngreentic-types-compat = 1" [[0, 4, 0]]
    rfl (by decide) rfl rfl).1 ⟨rfl, rfl⟩

/-- C2: the threshold is (0, 4, 0): if the lock file lists the watched
dependency only at version "0.4.0" and the manifest text contains the marker
substring, the process exits with status 1 and prints a message instructing
that the shim be removed. -/
theorem c2_threshold_and_scenario :
    MIN_VERSION = [0, 4, 0] ∧
    main' envShim = Except.ok ([failureMessage [0, 4, 0]], 1) ∧
    containsStr (failureMessage [0, 4, 0]) "Please drop the compat shim" = true :=
  ⟨rfl, rfl, rfl⟩

/-- C3: whenever some matching version string fails to parse, the run
terminates abnormally (exit status 1 via `SystemExit`) during parsing —
whatever the manifest holds — and the termination message names the
offending version string. -/
theorem c3_unparsable_version_aborts (env : Env) (m : String)
    (hlock : env.lockExists = true)
    (hfail : mapExcept parse_version (compVersions env.lockPackages) = Except.error m) :
    main' env = Except.error (RunError.systemExit m) ∧
    runScript env = 1 ∧
    ∃ v, v ∈ compVersions env.lockPackages ∧ parse_version v = Except.error m ∧
      m = "unable to parse component-runtime version " ++ v ∧
      containsStr m v = true := by
  have hmain := main_parse_error env m hlock hfail
  obtain ⟨v, hv, hpv⟩ := mapExcept_error_mem hfail
  have hmsg := parse_version_error_msg hpv
  refine ⟨hmain, ?_, v, hv, hpv, hmsg, ?_⟩
  · unfold runScript
    rw [hmain]
    rfl
  · rw [hmsg]
    exact containsStr_append_right _ v

/-- Witness for C3 at the concrete environment `envBadVersion`, whose lock
file lists the watched dependency at the malformed version "0.x.0". -/
theorem c3_unparsable_version_aborts_witness :
    main' envBadVersion =
      Except.error (RunError.systemExit "unable to parse component-runtime version 0.x.0") ∧
    runScript envBadVersion = 1 ∧
    ∃ v, v ∈ compVersions envBadVersion.lockPackages ∧
      parse_version v =
        Except.error "unable to parse component-runtime version 0.x.0" ∧
      "unable to parse component-runtime version 0.x.0" =
        "unable to parse component-runtime version " ++ v ∧
      containsStr "unable to parse component-runtime version 0.x.0" v = true :=
  c3_unparsable_version_aborts envBadVersion _ rfl rfl

/-- C4: if the lock file does not exist the process prints an informational
message and exits with status 0, for every package list and every manifest
(including an unreadable one). -/
theorem c4_missing_lock (env : Env) (hlock : env.lockExists = false) :
    main' env = Except.ok (["Cargo.lock not found; skipping compat shim check"], 0) := by
  simp [main', hlock]

/-- Witness for C4: no lock file, a high version in the package list and an
unreadable manifest still give the informational success. -/
theorem c4_missing_lock_witness :
    main' ⟨false, [⟨some "component-runtime", "9.9.9"⟩], none⟩ =
      Except.ok (["Cargo.lock not found; skipping compat shim check"], 0) :=
  c4_missing_lock _ rfl

/-- C5: if the lock file exists but no package record's name equals the
watched dependency identifier, the process prints an informational message
and exits with status 0, regardless of the manifest. -/
theorem c5_dependency_absent (env : Env) (hlock : env.lockExists = true)
    (habs : ∀ p ∈ env.lockPackages, p.name ≠ some "component-runtime") :
    main' env =
      Except.ok (["component-runtime is not in Cargo.lock; skipping compat shim check"], 0) := by
  have hf : env.lockPackages.filter (fun pkg => pkg.name == some "component-runtime") = [] :=
    List.filter_eq_nil_iff.mpr (fun p hp => by simpa using habs p hp)
  have hcv : compVersions env.lockPackages = [] := by
    unfold compVersions
    rw [hf]
    rfl
  simp [main', hlock, hcv]

/-- Witness for C5: a lock file with an unrelated package and a nameless
record, and an unreadable manifest. -/
theorem c5_dependency_absent_witness :
    main' ⟨true, [⟨some "serde", "1.0.0"⟩, ⟨none, "0.4.0"⟩], none⟩ =
      Except.ok (["component-runtime is not in Cargo.lock; skipping compat shim check"], 0) :=
  c5_dependency_absent _ rfl (by decide)

/-- C6: with two records for the watched dependency at "0.3.9" and "0.4.1"
(in either order) and the marker present, every record's version is parsed,
the maximum (0, 4, 1) is the one compared, and the exit code is 1. -/
theorem c6_maximum_selected :
    mapExcept parse_version (compVersions envTwo.lockPackages) =
      Except.ok [[0, 3, 9], [0, 4, 1]] ∧
    selectedVersion [[0, 3, 9], [0, 4, 1]] = [0, 4, 1] ∧
    selectedVersion [[0, 4, 1], [0, 3, 9]] = [0, 4, 1] ∧
    main' envTwo = Except.ok ([failureMessage [0, 4, 1]], 1) ∧
    main' envTwoRev = Except.ok ([failureMessage [0, 4, 1]], 1) :=
  ⟨rfl, rfl, rfl, rfl, rfl⟩

/-- C7: for any two version strings of dot-separated nonempty runs of
decimal digits with the same number of segments, `parse_version` succeeds on
both, the parsed tuples have equal length, and the comparison the script
uses agrees with standard lexicographic element-wise integer ordering
(`List.Lex` on the parsed tuples). -/
theorem c7_parse_then_compare_is_lex (s t : String)
    (hs : wfVer s = true) (ht : wfVer t = true)
    (hlen : ((s.data).splitOn '.').length = ((t.data).splitOn '.').length) :
    ∃ xs ys, parse_version s = Except.ok xs ∧ parse_version t = Except.ok ys ∧
      xs.length = ys.length ∧
      (pyTupleLt xs ys = true ↔ List.Lex (fun a b : Int => a < b) xs ys) ∧
      (pyTupleGe xs ys = true ↔ ¬ List.Lex (fun a b : Int => a < b) xs ys) := by
  unfold wfVer at hs ht
  rw [List.all_eq_true] at hs ht
  have hs' : ∀ seg ∈ (s.data).splitOn '.', seg ≠ [] ∧ ∀ c ∈ seg, isDigitCh c = true := by
    intro seg hseg
    have h0 := hs seg hseg
    simp only [Bool.and_eq_true, Bool.not_eq_true', List.all_eq_true] at h0
    exact ⟨List.isEmpty_eq_false.mp h0.1, h0.2⟩
  have ht' : ∀ seg ∈ (t.data).splitOn '.', seg ≠ [] ∧ ∀ c ∈ seg, isDigitCh c = true := by
    intro seg hseg
    have h0 := ht seg hseg
    simp only [Bool.and_eq_true, Bool.not_eq_true', List.all_eq_true] at h0
    exact ⟨List.isEmpty_eq_false.mp h0.1, h0.2⟩
  obtain ⟨xs, hxs, hlxs⟩ := seqParse_wf _ hs'
  obtain ⟨ys, hys, hlys⟩ := seqParse_wf _ ht'
  refine ⟨xs, ys, ?_, ?_, ?_, pyTupleLt_iff_lex xs ys, ?_⟩
  · simp [parse_version, hxs]
  · simp [parse_version, hys]
  · rw [hlxs, hlys, hlen]
  · rw [← pyTupleLt_iff_lex xs ys]
    unfold pyTupleGe
    cases pyTupleLt xs ys <;> simp

/-- Witness for C7 at the strings "0.3.9" and "0.4.0" of the spec's
example. -/
theorem c7_parse_then_compare_is_lex_witness :
    wfVer "0.3.9" = true ∧ wfVer "0.4.0" = true ∧
    ((("0.3.9" : String).data).splitOn '.').length =
      ((("0.4.0" : String).data).splitOn '.').length ∧
    (∃ xs ys, parse_version "0.3.9" = Except.ok xs ∧
      parse_version "0.4.0" = Except.ok ys ∧
      xs.length = ys.length ∧
      (pyTupleLt xs ys = true ↔ List.Lex (fun a b : Int => a < b) xs ys) ∧
      (pyTupleGe xs ys = true ↔ ¬ List.Lex (fun a b : Int => a < b) xs ys)) :=
  ⟨rfl, rfl, rfl, c7_parse_then_compare_is_lex "0.3.9" "0.4.0" rfl rfl rfl⟩

/-- C8: if the lock file exists, the watched dependency is present and all
its versions parse, but the manifest is missing or unreadable, the run
terminates abnormally with the propagated I/O error. -/
theorem c8_manifest_io_error (env : Env) (parsed : List (List Int))
    (hlock : env.lockExists = true)
    (hvne : compVersions env.lockPackages ≠ [])
    (hparse : mapExcept parse_version (compVersions env.lockPackages) = Except.ok parsed)
    (hman : env.manifest = none) :
    main' env = Except.error RunError.ioError := by
  simp [main', hlock, List.isEmpty_eq_false.mpr hvne, hparse, hman]

/-- Witness for C8: parseable lock data but no readable manifest. -/
theorem c8_manifest_io_error_witness :
    main' ⟨true, [⟨some "component-runtime", "0.4.0"⟩], none⟩ =
      Except.error RunError.ioError :=
  c8_manifest_io_error _ [[0, 4, 0]] rfl (by decide) rfl rfl

/-- C9: `parse_version` performs no non-negativity check: the version string
"0.-1.0" parses successfully to the tuple (0, -1, 0), because the segment
model of Python `int` accepts a leading sign. -/
theorem c9_negative_segment_accepted :
    parse_version "0.-1.0" = Except.ok [0, -1, 0] ∧
    pyIntChars ("-1" : String).data = some (-1) :=
  ⟨rfl, rfl⟩

/-- C10: an unparsable version string raises `SystemExit` carrying a message,
which yields process exit status 1 — the same status as the failure outcome
instructing shim removal, so the two outcomes are not distinguishable by
exit code alone. -/
theorem c10_exit_codes_collide (env : Env) (m : String)
    (hlock : env.lockExists = true)
    (hfail : mapExcept parse_version (compVersions env.lockPackages) = Except.error m) :
    main' env = Except.error (RunError.systemExit m) ∧
    processExit (Except.error (RunError.systemExit m)) = 1 ∧
    runScript env = 1 ∧
    main' envShim = Except.ok ([failureMessage [0, 4, 0]], 1) ∧
    runScript envShim = 1 := by
  have hmain := main_parse_error env m hlock hfail
  refine ⟨hmain, rfl, ?_, rfl, rfl⟩
  unfold runScript
  rw [hmain]
  rfl

/-- Witness for C10 at the concrete environment `envBadVersion`. -/
theorem c10_exit_codes_collide_witness :
    main' envBadVersion =
      Except.error (RunError.systemExit "unable to parse component-runtime version 0.x.0") ∧
    processExit (Except.error
      (RunError.systemExit "unable to parse component-runtime version 0.x.0")) = 1 ∧
    runScript envBadVersion = 1 ∧
    main' envShim = Except.ok ([failureMessage [0, 4, 0]], 1) ∧
    runScript envShim = 1 :=
  c10_exit_codes_collide envBadVersion _ rfl rfl
